import Mathlib

/-!
Verification of the webcam-motion-detector repository's detection-and-matching
pipeline against its specification.

The embedding follows the three source files:
* `src/backupFiles/face-recognition-tensorflow.tsx` — heuristic region detector,
  descriptor generator, and simple-nearest matcher (`findFaceMatch`,
  `calculateSignatureDistance`, `generateFaceSignature`, `detectFaces`);
* `src/motion-detector.tsx` — pixel-difference motion detector (`detectMotion`);
* `src/unnamed/part_000` — the face-api variant's registry operations
  (`saveFace`, `removeFace`, `exportFaces`, `importFaces`).

Descriptor components and pixel samples are modelled as rationals (the source's
float arithmetic on these values is exact on the inputs the claims use), byte
buffers as lists of naturals.  The source's Euclidean distance returns
`Math.sqrt(sum)`; since every comparison the source makes is between such
square roots (and `sqrt` is strictly monotone on nonnegatives), the distance is
represented computably by its radicand (`calculateSignatureDistanceSq`), with
the mismatch return value `1.0 = sqrt 1` represented by radicand `1` and the
match threshold `0.5 = sqrt (1/4)` by `1/4`.  Theorems about the distance value
itself apply `Real.sqrt` to the radicand.
-/

namespace WMD


/-- A saved face record, as produced by `saveFace` or supplied by `importFaces`
in the source.  Imported JSON objects may lack any field (JS `undefined`), so
every field is optional; `saveFace` fills all four. -/
structure FaceRecord where
  id : Option String
  name : Option String
  savedAt : Option String
  descriptor : Option (List ℚ)
deriving DecidableEq

/-- The body of the `for` loop of `calculateSignatureDistance`
(face-recognition-tensorflow.tsx lines 272-276): `sum += diff * diff` over
`i = 0 .. sig1.length - 1`, reading `sig1[i]` and `sig2[i]`. -/
def sumSqDiff (sig1 sig2 : List ℚ) : ℚ :=
  (List.range sig1.length).foldl
    (fun sum i => sum + (sig1.getD i 0 - sig2.getD i 0) * (sig1.getD i 0 - sig2.getD i 0)) 0

/-- Radicand of `calculateSignatureDistance` (face-recognition-tensorflow.tsx
lines 269-279).  The source returns `1.0` when either signature is absent or
the lengths differ (radicand `1`, since `1.0 = sqrt 1`), otherwise
`Math.sqrt(sum)` (radicand `sum`). -/
def calculateSignatureDistanceSq : Option (List ℚ) → Option (List ℚ) → ℚ
  | some sig1, some sig2 => if sig1.length = sig2.length then sumSqDiff sig1 sig2 else 1
  | _, _ => 1

/-- Loop body of `findFaceMatch` (face-recognition-tensorflow.tsx lines
256-263): update the running best when the entry's distance is strictly
smaller.  The accumulator carries (`bestMatch`, radicand of `bestDistance`);
the strict `<` on square roots of nonnegatives coincides with strict `<` on
radicands. -/
def matchStep (currentSignature : Option (List ℚ))
    (acc : Option FaceRecord × ℚ) (face : FaceRecord) : Option FaceRecord × ℚ :=
  let distanceSq := calculateSignatureDistanceSq currentSignature face.descriptor
  if distanceSq < acc.2 then (some face, distanceSq) else acc

/-- `findFaceMatch` (face-recognition-tensorflow.tsx lines 250-266): `null`
for an empty registry, otherwise a fold starting from
(`bestMatch = null`, `bestDistance = 0.5`), i.e. radicand `1/4`. -/
def findFaceMatch (currentSignature : Option (List ℚ))
    (savedFaces : List FaceRecord) : Option FaceRecord :=
  if savedFaces.length = 0 then none
  else (savedFaces.foldl (matchStep currentSignature) (none, 1/4)).1

/-- The single-entry registry of the spec's concrete matcher scenario:
one face named "Alice" with an all-zeros 128-length descriptor. -/
def aliceFace : FaceRecord :=
  { id := some "1", name := some "Alice", savedAt := some "2025-01-01",
    descriptor := some (List.replicate 128 0) }

/-- The all-zeros query descriptor of the spec's concrete matcher scenario. -/
def aliceQuery : Option (List ℚ) := some (List.replicate 128 0)

/-- An RGBA raster as read back from the canvas (`getImageData`): width,
height, and the flat byte buffer (`data`), 4 bytes per pixel. -/
structure ImageData where
  width : ℕ
  height : ℕ
  data : List ℕ
deriving DecidableEq

/-- The motion detector's per-tick mutable state: the `motionDetected` React
state and the `previousFrameRef` buffer (motion-detector.tsx lines 7-9). -/
structure MotionState where
  motionDetected : Bool
  previousFrame : Option ImageData
deriving DecidableEq

/-- One sampled pixel's changed-test (motion-detector.tsx lines 94-101):
`true` when any of |ΔR|, |ΔG|, |ΔB| at byte offset `i` strictly exceeds the
sensitivity threshold. -/
def pixelChanged (sensitivity : ℕ) (currentData previousData : List ℕ) (i : ℕ) : Bool :=
  let rdiff := ((currentData.getD i 0 : ℤ) - (previousData.getD i 0 : ℤ)).natAbs
  let gdiff := ((currentData.getD (i + 1) 0 : ℤ) - (previousData.getD (i + 1) 0 : ℤ)).natAbs
  let bdiff := ((currentData.getD (i + 2) 0 : ℤ) - (previousData.getD (i + 2) 0 : ℤ)).natAbs
  decide (sensitivity < rdiff) || decide (sensitivity < gdiff) || decide (sensitivity < bdiff)

/-- The sampling loop of `detectMotion` (motion-detector.tsx lines 87-102):
`for (let i = 0; i < dataLength - 3; i += 16)` over
`dataLength = Math.min(currentData.length, previousData.length)`, counting
changed pixels.  The byte offsets visited are `16*k` for
`16*k < dataLength - 3`, i.e. `k < (dataLength - 3 + 15) / 16`. -/
def countMotionPixels (sensitivity : ℕ) (currentData previousData : List ℕ) : ℕ :=
  let dataLength := min currentData.length previousData.length
  ((List.range ((dataLength - 3 + 15) / 16)).filter
    (fun k => pixelChanged sensitivity currentData previousData (16 * k))).length

/-- One tick of `detectMotion` (motion-detector.tsx lines 51-121) after the
frame grab: when a previous frame of identical dimensions and equal buffer
length exists, set `motionDetected` to
`motionPixels > (dataLength / 16) * 0.01`; otherwise leave it unchanged.
Either way store the current frame as the new previous frame. -/
def detectMotionTick (sensitivity : ℕ) (current : ImageData) (s : MotionState) : MotionState :=
  let motionDetected :=
    match s.previousFrame with
    | none => s.motionDetected
    | some previousFrame =>
      if previousFrame.width = current.width ∧ previousFrame.height = current.height then
        if current.data.length = previousFrame.data.length then
          let dataLength := min current.data.length previousFrame.data.length
          let motionPixels := countMotionPixels sensitivity current.data previousFrame.data
          let motionThreshold : ℚ := ((dataLength : ℚ) / 16) * (1 / 100)
          decide ((motionPixels : ℚ) > motionThreshold)
        else s.motionDetected
      else s.motionDetected
  { motionDetected := motionDetected, previousFrame := some current }

/-- A captured frame as drawn to the canvas: reported dimensions plus the flat
RGBA byte lookup `data`.  JS array indexing is modelled as a total function on
rational indices because the source's sampling arithmetic
(`faceRect` geometry) is rational-valued in general; a concrete frame's lookup
decides integrality and range itself. -/
structure Frame where
  width : ℕ
  height : ℕ
  data : ℚ → ℚ

/-- `data.length` of the canvas image data: 4 bytes per pixel. -/
def Frame.dataLength (fr : Frame) : ℕ := fr.width * fr.height * 4

/-- The `faceRect` record of the source (x, y, width, height), rational as in
the source's float arithmetic. -/
structure Rect where
  x : ℚ
  y : ℚ
  width : ℚ
  height : ℚ
deriving DecidableEq

/-- `faceRect` computation (face-recognition-tensorflow.tsx lines 137-145): a
centered square whose side is one third of the shorter frame dimension;
`centerX`/`centerY` use `Math.floor`, the side uses exact division by 3. -/
def faceRect (w h : ℕ) : Rect :=
  let centerX : ℚ := ((w / 2 : ℕ) : ℚ)
  let centerY : ℚ := ((h / 2 : ℕ) : ℚ)
  let rectSize : ℚ := ((min w h : ℕ) : ℚ) / 3
  ⟨centerX - rectSize / 2, centerY - rectSize / 2, rectSize, rectSize⟩

/-- The arithmetic progression visited by
`for (let v = start; v < start + size; v += 10)`: the values `start + 10*k`
for `10*k < size`, i.e. `k < ⌈size / 10⌉`. -/
def sampleStarts (start size : ℚ) : List ℚ :=
  (List.range (Nat.ceil (size / 10))).map (fun (k : ℕ) => start + 10 * (k : ℚ))

/-- Accumulator of the center-region sampling loop
(face-recognition-tensorflow.tsx lines 148-161): running channel totals and
the count of in-bounds samples. -/
structure ColorTotals where
  rTotal : ℚ
  gTotal : ℚ
  bTotal : ℚ
  pixelCount : ℕ
deriving DecidableEq

/-- Body of the inner sampling loop (face-recognition-tensorflow.tsx lines
152-160): accumulate R, G, B at flat index `i = (y*width + x)*4` when the
index guard `0 <= i < data.length` holds. -/
def sampleStep (fr : Frame) (y : ℚ) (acc : ColorTotals) (x : ℚ) : ColorTotals :=
  let i := (y * (fr.width : ℚ) + x) * 4
  if 0 ≤ i ∧ i < (fr.dataLength : ℚ) then
    ⟨acc.rTotal + fr.data i, acc.gTotal + fr.data (i + 1), acc.bTotal + fr.data (i + 2),
      acc.pixelCount + 1⟩
  else acc

/-- The nested sampling loops over the face rectangle, stride 10 in each axis
(face-recognition-tensorflow.tsx lines 151-161). -/
def centerTotals (fr : Frame) (rect : Rect) : ColorTotals :=
  (sampleStarts rect.y rect.height).foldl
    (fun acc y => (sampleStarts rect.x rect.width).foldl (sampleStep fr y) acc)
    ⟨0, 0, 0, 0⟩

/-- Outcome of the heuristic detection step: the `isFaceDetected` flag and the
two statistics it is computed from. -/
structure HeuristicResult where
  present : Bool
  colorVariance : ℚ
  brightness : ℚ
deriving DecidableEq

/-- The heuristic face judgement of `detectFaces`
(face-recognition-tensorflow.tsx lines 147-175): per-channel means over the
sampled center region, `colorVariance = |R-G| + |R-B| + |G-B|`,
`brightness = (R+G+B)/3`, and
`present = colorVariance < 80 && brightness > 80 && brightness < 200`. -/
def heuristicDetect (fr : Frame) : HeuristicResult :=
  let rect := faceRect fr.width fr.height
  let t := centerTotals fr rect
  let rAvg := t.rTotal / (t.pixelCount : ℚ)
  let gAvg := t.gTotal / (t.pixelCount : ℚ)
  let bAvg := t.bTotal / (t.pixelCount : ℚ)
  let colorVariance := |rAvg - gAvg| + |rAvg - bAvg| + |gAvg - bAvg|
  let brightnessAvg := (rAvg + gAvg + bAvg) / 3
  ⟨decide (colorVariance < 80 ∧ 80 < brightnessAvg ∧ brightnessAvg < 200),
    colorVariance, brightnessAvg⟩

/-- Flat byte index of descriptor sample `i` in `generateFaceSignature`
(face-recognition-tensorflow.tsx lines 223-232): an 8-wide, 16-tall grid of
sample points inside the face rectangle, `Math.floor`ed to integer pixel
coordinates. -/
def sampleIndex (fr : Frame) (rect : Rect) (i : ℕ) : ℤ :=
  let row : ℚ := ((i / 8 : ℕ) : ℚ) / 16
  let col : ℚ := ((i % 8 : ℕ) : ℚ) / 8
  let x : ℤ := Int.floor (rect.x + rect.width * col)
  let y : ℤ := Int.floor (rect.y + rect.height * row)
  (y * (fr.width : ℤ) + x) * 4

/-- `generateFaceSignature` (face-recognition-tensorflow.tsx lines 217-247):
128 luma-weighted samples `(0.3*R + 0.6*G + 0.1*B)/255`, with `0` pushed for a
sample point outside the buffer. -/
def generateFaceSignature (fr : Frame) (rect : Rect) : List ℚ :=
  (List.range 128).map (fun i =>
    let pixelIndex := sampleIndex fr rect i
    if 0 ≤ pixelIndex ∧ pixelIndex < (fr.dataLength : ℤ) then
      (fr.data (pixelIndex : ℚ) * (3/10) + fr.data ((pixelIndex : ℚ) + 1) * (6/10)
        + fr.data ((pixelIndex : ℚ) + 2) * (1/10)) / 255
    else 0)

/-- The 640x480 solid-gray frame of the spec's concrete scenario: every pixel
has R = G = B = 128 (alpha 255); indices that are not integers in
`[0, 640*480*4)` read as out-of-buffer. -/
def grayData : ℚ → ℚ := fun i =>
  if i.den = 1 ∧ 0 ≤ i.num ∧ i.num < 1228800 then
    (if i.num % 4 = 3 then 255 else 128)
  else 0

/-- The 640x480 solid-gray frame. -/
def grayFrame : Frame := ⟨640, 480, grayData⟩

/-- JS `String.prototype.trim` over the character list (whitespace stripped
from both ends); used by `saveFace`'s `faceName.trim()`. -/
def isTrimWhitespace (c : Char) : Bool :=
  c == ' ' || c == '\t' || c == '\n' || c == '\r'

/-- JS `faceName.trim()`: drop whitespace from both ends of the string. -/
def jsTrim (s : String) : String :=
  String.mk (((s.data.dropWhile isTrimWhitespace).reverse.dropWhile isTrimWhitespace).reverse)

/-- Error message surfaced by `saveFace` when no detection is available
(part_000 line 193). -/
def noFaceErrorMsg : String := "No face detected. Please position your face in the frame."

/-- `saveFace` (part_000 lines 182-216), one enrollment attempt: the guard
`!faceDetected || !faceName.trim()` silently returns (the `videoRef` guard is
environment plumbing and assumed satisfied); an empty detection list surfaces
an error message and leaves the registry unchanged; otherwise a record with
`id = Date.now().toString()` (passed as `nowId`), the trimmed name, the
formatted timestamp (`savedAtStr`) and the first detection's descriptor is
appended.  Returns the updated registry and the surfaced error, if any. -/
def saveFace (faceDetected : Bool) (faceName : String) (detections : List (List ℚ))
    (nowId savedAtStr : String) (savedFaces : List FaceRecord) :
    List FaceRecord × Option String :=
  if faceDetected = false ∨ jsTrim faceName = "" then (savedFaces, none)
  else if detections.length = 0 then (savedFaces, some noFaceErrorMsg)
  else
    let newFace : FaceRecord :=
      { id := some nowId, name := some (jsTrim faceName),
        savedAt := some savedAtStr, descriptor := some (detections.getD 0 []) }
    (savedFaces ++ [newFace], none)

/-- `removeFace` (part_000 lines 219-224): delete the entry with the given id
by filtering. -/
def removeFace (idv : String) (savedFaces : List FaceRecord) : List FaceRecord :=
  savedFaces.filter (fun face => decide (face.id ≠ some idv))

/-- A parsed JSON value, as far as `importFaces` inspects it: either not an
array, or an array of face-shaped objects (fields possibly missing). -/
inductive ParsedJson where
  | nonArray : ParsedJson
  | array : List FaceRecord → ParsedJson
deriving DecidableEq

/-- Error message surfaced by `importFaces` on a parse failure
(part_000 line 255). -/
def importErrorMsg : String := "Invalid face signatures file. Please try again."

/-- `importFaces` (part_000 lines 242-259): a `JSON.parse` failure surfaces an
error message and leaves the registry unchanged; a non-array or empty-array
value is a silent no-op; a non-empty array is appended wholesale, with no
per-entry validation.  The parse outcome is the `parsed` argument. -/
def importFaces (parsed : Except String ParsedJson) (savedFaces : List FaceRecord) :
    List FaceRecord × Option String :=
  match parsed with
  | Except.error _ => (savedFaces, some importErrorMsg)
  | Except.ok ParsedJson.nonArray => (savedFaces, none)
  | Except.ok (ParsedJson.array importedFaces) =>
    if 0 < importedFaces.length then (savedFaces ++ importedFaces, none)
    else (savedFaces, none)

/-- `exportFaces` (part_000 lines 227-239): a no-op for an empty registry;
otherwise the registry is serialized in registry order as a JSON array.
Serializing and re-parsing the downloaded file is modelled as the identity on
the parsed value. -/
def exportFaces (savedFaces : List FaceRecord) : Option ParsedJson :=
  if savedFaces.length = 0 then none else some (ParsedJson.array savedFaces)

lemma sumSqDiff_self (s : List ℚ) : sumSqDiff s s = 0 := by
  unfold sumSqDiff
  have h : ∀ (l : List ℕ) (c : ℚ),
      l.foldl (fun sum i => sum + (s.getD i 0 - s.getD i 0) * (s.getD i 0 - s.getD i 0)) c
        = c := by
    intro l
    induction l with
    | nil => intro c; rfl
    | cons a t ih => intro c; simp [List.foldl_cons, ih]
  simp [h (List.range s.length) 0]

lemma matchFold_spec (q : Option (List ℚ)) :
    ∀ (l : List FaceRecord) (b : Option FaceRecord) (d : ℚ),
      (l.foldl (matchStep q) (b, d) = (b, d) ∧
        ∀ g ∈ l, d ≤ calculateSignatureDistanceSq q g.descriptor) ∨
      (∃ f ∈ l, l.foldl (matchStep q) (b, d) =
            (some f, calculateSignatureDistanceSq q f.descriptor) ∧
          calculateSignatureDistanceSq q f.descriptor < d ∧
          ∀ g ∈ l, calculateSignatureDistanceSq q f.descriptor ≤
            calculateSignatureDistanceSq q g.descriptor) := by
  intro l
  induction l with
  | nil => intro b d; left; exact ⟨rfl, by simp⟩
  | cons f t ih =>
    intro b d
    by_cases h : calculateSignatureDistanceSq q f.descriptor < d
    · have hstep : matchStep q (b, d) f
          = (some f, calculateSignatureDistanceSq q f.descriptor) := by
        simp [matchStep, h]
      rcases ih (some f) (calculateSignatureDistanceSq q f.descriptor) with
        ⟨he, hall⟩ | ⟨g, hg, he, hlt, hall⟩
      · right
        refine ⟨f, List.mem_cons_self f t, ?_, h, ?_⟩
        · rw [List.foldl_cons, hstep, he]
        · intro g hg
          rcases List.mem_cons.mp hg with hg | hg
          · exact hg ▸ le_refl _
          · exact hall g hg
      · right
        refine ⟨g, List.mem_cons_of_mem f hg, ?_, lt_trans hlt h, ?_⟩
        · rw [List.foldl_cons, hstep, he]
        · intro x hx
          rcases List.mem_cons.mp hx with hx | hx
          · exact hx ▸ hlt.le
          · exact hall x hx
    · have hstep : matchStep q (b, d) f = (b, d) := by
        simp [matchStep, h]
      rcases ih b d with ⟨he, hall⟩ | ⟨g, hg, he, hlt, hall⟩
      · left
        refine ⟨by rw [List.foldl_cons, hstep, he], ?_⟩
        intro g hg
        rcases List.mem_cons.mp hg with hg | hg
        · exact hg ▸ not_lt.mp h
        · exact hall g hg
      · right
        refine ⟨g, List.mem_cons_of_mem f hg, ?_, hlt, ?_⟩
        · rw [List.foldl_cons, hstep, he]
        · intro x hx
          rcases List.mem_cons.mp hx with hx | hx
          · exact hx ▸ le_trans hlt.le (not_lt.mp h)
          · exact hall x hx

lemma findFaceMatch_some (q : Option (List ℚ)) (faces : List FaceRecord)
    (f : FaceRecord) (h : findFaceMatch q faces = some f) :
    f ∈ faces ∧ calculateSignatureDistanceSq q f.descriptor < 1/4 ∧
      ∀ g ∈ faces, calculateSignatureDistanceSq q f.descriptor ≤
        calculateSignatureDistanceSq q g.descriptor := by
  unfold findFaceMatch at h
  by_cases hl : faces.length = 0
  · simp [hl] at h
  · simp only [hl, if_false] at h
    rcases matchFold_spec q faces none (1/4) with ⟨he, _⟩ | ⟨f0, hmem, he, hlt, hall⟩
    · rw [he] at h; exact absurd h (by simp)
    · rw [he] at h
      simp only [Option.some.injEq] at h
      subst h
      exact ⟨hmem, hlt, hall⟩

lemma findFaceMatch_isSome (q : Option (List ℚ)) (faces : List FaceRecord)
    (g : FaceRecord) (hg : g ∈ faces)
    (hlt : calculateSignatureDistanceSq q g.descriptor < 1/4) :
    ∃ f, findFaceMatch q faces = some f := by
  have hl : faces.length ≠ 0 := by
    intro h0
    rw [List.length_eq_zero.mp h0] at hg
    exact absurd hg (List.not_mem_nil g)
  unfold findFaceMatch
  simp only [hl, if_false]
  rcases matchFold_spec q faces none (1/4) with ⟨_, hall⟩ | ⟨f0, _, he, _, _⟩
  · exact absurd hlt (not_lt.mpr (hall g hg))
  · exact ⟨f0, by rw [he]⟩

lemma sqrt_ratCast_lt_half (x : ℚ) : Real.sqrt (x : ℝ) < 1/2 ↔ x < 1/4 := by
  rw [Real.sqrt_lt' (by norm_num : (0:ℝ) < 1/2)]
  rw [show ((1:ℝ)/2) ^ 2 = (((1:ℚ)/4 : ℚ) : ℝ) by norm_num]
  exact Rat.cast_lt

lemma distanceSq_alice : calculateSignatureDistanceSq aliceQuery aliceFace.descriptor = 0 := by
  simp [aliceQuery, aliceFace, calculateSignatureDistanceSq, sumSqDiff_self]

/-- C1: under the simple-nearest policy, `findFaceMatch` returns `none` on an
empty registry; any returned match is a registry entry of minimum distance to
the query whose distance is strictly below the 0.5 threshold; whenever some
entry's distance is strictly below 0.5 a match is returned, and when every
entry's distance meets or exceeds 0.5 the result is `none`; concretely, with a
single entry named "Alice" whose descriptor is all zeros and an all-zeros
query, it returns the "Alice" entry at distance 0. -/
theorem claim1_findFaceMatch_simple_nearest (q : Option (List ℚ)) (faces : List FaceRecord) :
    (faces = [] → findFaceMatch q faces = none) ∧
    (∀ f, findFaceMatch q faces = some f →
        f ∈ faces ∧
        Real.sqrt ((calculateSignatureDistanceSq q f.descriptor : ℚ) : ℝ) < 1/2 ∧
        ∀ g ∈ faces, calculateSignatureDistanceSq q f.descriptor ≤
          calculateSignatureDistanceSq q g.descriptor) ∧
    ((∃ g ∈ faces, Real.sqrt ((calculateSignatureDistanceSq q g.descriptor : ℚ) : ℝ) < 1/2) →
        ∃ f, findFaceMatch q faces = some f) ∧
    ((∀ g ∈ faces, ¬ Real.sqrt ((calculateSignatureDistanceSq q g.descriptor : ℚ) : ℝ) < 1/2) →
        findFaceMatch q faces = none) ∧
    (findFaceMatch aliceQuery [aliceFace] = some aliceFace ∧
      aliceFace.name = some "Alice" ∧
      Real.sqrt ((calculateSignatureDistanceSq aliceQuery aliceFace.descriptor : ℚ) : ℝ) = 0) := by
  refine ⟨?_, ?_, ?_, ?_, ?_, ?_, ?_⟩
  · intro h; subst h; rfl
  · intro f h
    obtain ⟨hmem, hlt, hall⟩ := findFaceMatch_some q faces f h
    exact ⟨hmem, (sqrt_ratCast_lt_half _).mpr hlt, hall⟩
  · rintro ⟨g, hg, hlt⟩
    exact findFaceMatch_isSome q faces g hg ((sqrt_ratCast_lt_half _).mp hlt)
  · intro hall
    cases hr : findFaceMatch q faces with
    | none => rfl
    | some f =>
      obtain ⟨hmem, hlt, _⟩ := findFaceMatch_some q faces f hr
      exact absurd ((sqrt_ratCast_lt_half _).mpr hlt) (hall f hmem)
  · unfold findFaceMatch
    rw [if_neg (by norm_num), List.foldl_cons, List.foldl_nil]
    unfold matchStep
    rw [if_pos (by rw [distanceSq_alice]; norm_num)]
  · rfl
  · rw [distanceSq_alice]; simp

/-- Witness for C1 at concrete inputs: the empty registry yields no match, and
the all-zeros query against the "Alice" registry yields a match. -/
theorem claim1_witness :
    findFaceMatch aliceQuery [] = none ∧
    (∃ f, findFaceMatch aliceQuery [aliceFace] = some f) := by
  have h0 := claim1_findFaceMatch_simple_nearest aliceQuery []
  have h1 := claim1_findFaceMatch_simple_nearest aliceQuery [aliceFace]
  refine ⟨h0.1 rfl, h1.2.2.1 ⟨aliceFace, ?_, ?_⟩⟩
  · simp
  · rw [h1.2.2.2.2.2.2]; norm_num

lemma foldl_add_eq_sum (f : ℕ → ℚ) :
    ∀ (l : List ℕ) (c : ℚ), l.foldl (fun s i => s + f i) c = c + (l.map f).sum := by
  intro l
  induction l with
  | nil => intro c; simp
  | cons a t ih => intro c; simp [List.foldl_cons, ih, add_assoc]

lemma sum_map_range (f : ℕ → ℚ) (n : ℕ) :
    ((List.range n).map f).sum = ∑ i ∈ Finset.range n, f i := by
  induction n with
  | zero => simp
  | succ m ih => rw [List.range_succ, List.map_append, List.sum_append,
      Finset.sum_range_succ, ih]; simp

lemma sumSqDiff_eq_sum (a b : List ℚ) :
    sumSqDiff a b = ∑ i ∈ Finset.range a.length, (a.getD i 0 - b.getD i 0) ^ 2 := by
  unfold sumSqDiff
  rw [foldl_add_eq_sum (fun i => (a.getD i 0 - b.getD i 0) * (a.getD i 0 - b.getD i 0)),
    sum_map_range, zero_add]
  exact Finset.sum_congr rfl (fun i _ => (sq (a.getD i 0 - b.getD i 0)).symm ▸ by ring)

/-- C2: on equal-length descriptors the matcher's distance is the plain
Euclidean distance `sqrt (Σ (aᵢ - bᵢ)²)`, neither normalized nor clipped; a
length mismatch or an absent descriptor yields the fixed disqualifying
distance 1.0 (radicand 1) instead of an error, and an entry at that distance is
never returned as a match. -/
theorem claim2_distance_euclidean (a b : List ℚ) :
    (a.length = b.length →
      Real.sqrt ((calculateSignatureDistanceSq (some a) (some b) : ℚ) : ℝ) =
        Real.sqrt (((∑ i ∈ Finset.range a.length, (a.getD i 0 - b.getD i 0) ^ 2 : ℚ) : ℝ))) ∧
    (a.length ≠ b.length → calculateSignatureDistanceSq (some a) (some b) = 1) ∧
    calculateSignatureDistanceSq none (some b) = 1 ∧
    calculateSignatureDistanceSq (some a) none = 1 ∧
    (∀ (q : Option (List ℚ)) (faces : List FaceRecord) (f : FaceRecord),
        f ∈ faces → calculateSignatureDistanceSq q f.descriptor = 1 →
        findFaceMatch q faces ≠ some f) := by
  refine ⟨?_, ?_, rfl, rfl, ?_⟩
  · intro h
    rw [show calculateSignatureDistanceSq (some a) (some b)
        = if a.length = b.length then sumSqDiff a b else 1 from rfl,
      if_pos h, sumSqDiff_eq_sum]
  · intro h
    rw [show calculateSignatureDistanceSq (some a) (some b)
        = if a.length = b.length then sumSqDiff a b else 1 from rfl,
      if_neg h]
  · intro q faces f _ h1 hmatch
    obtain ⟨_, hlt, _⟩ := findFaceMatch_some q faces f hmatch
    rw [h1] at hlt
    exact absurd hlt (by norm_num)

/-- Witness for C2 at concrete inputs: equal-length descriptors [1] and [0]
give the Euclidean distance, the mismatched pair [0] and [0,1] gives distance
1, and a registry entry with an absent descriptor is never matched. -/
theorem claim2_witness :
    Real.sqrt ((calculateSignatureDistanceSq (some [1]) (some [0]) : ℚ) : ℝ) =
      Real.sqrt (((∑ i ∈ Finset.range ([(1:ℚ)].length),
        (([(1:ℚ)].getD i 0 - [(0:ℚ)].getD i 0) ^ 2) : ℚ) : ℝ)) ∧
    calculateSignatureDistanceSq (some [0]) (some [0, 1]) = 1 ∧
    findFaceMatch (some []) [⟨none, none, none, none⟩] ≠
      some ⟨none, none, none, none⟩ := by
  refine ⟨(claim2_distance_euclidean [1] [0]).1 rfl,
    (claim2_distance_euclidean [0] [0, 1]).2.1 (by norm_num),
    (claim2_distance_euclidean [] []).2.2.2.2 (some []) [⟨none, none, none, none⟩]
      ⟨none, none, none, none⟩ (by simp) rfl⟩

lemma decide_rat_threshold (m L : ℕ) :
    decide ((m : ℚ) > ((L : ℚ) / 16) * (1 / 100)) = decide (L < 1600 * m) := by
  rw [decide_eq_decide, gt_iff_lt,
    show ((L : ℚ) / 16) * (1 / 100) = (L : ℚ) / 1600 by ring,
    div_lt_iff₀ (by norm_num : (0:ℚ) < 1600)]
  constructor
  · intro h
    have h2 : (L : ℚ) < ((1600 * m : ℕ) : ℚ) := by push_cast; linarith
    exact_mod_cast h2
  · intro h
    have h2 : ((L : ℕ) : ℚ) < ((1600 * m : ℕ) : ℚ) := by exact_mod_cast h
    push_cast at h2
    linarith

lemma detectMotionTick_eval (sensitivity : ℕ) (current : ImageData) (s : MotionState)
    (prev : ImageData) (hp : s.previousFrame = some prev)
    (hw : prev.width = current.width) (hh : prev.height = current.height)
    (hl : current.data.length = prev.data.length) :
    detectMotionTick sensitivity current s =
      ⟨decide (min current.data.length prev.data.length
          < 1600 * countMotionPixels sensitivity current.data prev.data), some current⟩ := by
  obtain ⟨b, pf⟩ := s
  simp only [MotionState.previousFrame] at hp
  subst hp
  unfold detectMotionTick
  simp only [if_pos (And.intro hw hh), if_pos hl]
  rw [decide_rat_threshold]

lemma detectMotionTick_keep (sensitivity : ℕ) (current : ImageData) (s : MotionState)
    (h : s.previousFrame = none ∨ ∃ prev, s.previousFrame = some prev ∧
      ¬(prev.width = current.width ∧ prev.height = current.height)) :
    detectMotionTick sensitivity current s =
      ⟨s.motionDetected, some current⟩ := by
  obtain ⟨b, pf⟩ := s
  rcases h with h | ⟨prev, hp, hne⟩
  · simp only [MotionState.previousFrame] at h
    subst h
    rfl
  · simp only [MotionState.previousFrame] at hp
    subst hp
    unfold detectMotionTick
    simp only [if_neg hne]

lemma pixelChanged_self (sensitivity : ℕ) (d : List ℕ) (i : ℕ) :
    pixelChanged sensitivity d d i = false := by
  simp [pixelChanged]

lemma countMotionPixels_self (sensitivity : ℕ) (d : List ℕ) :
    countMotionPixels sensitivity d d = 0 := by
  unfold countMotionPixels
  simp only []
  rw [List.filter_eq_nil_iff.mpr (fun k _ => by simp [pixelChanged_self])]
  rfl

/-- C4: with a previous frame of matching dimensions and equal buffer length,
the tick reports motion exactly when the count of changed sampled pixels
strictly exceeds 1% of the code's sampled-pixel count `dataLength / 16`; a
sampled pixel counts as changed exactly when one of its |ΔR|, |ΔG|, |ΔB|
strictly exceeds the sensitivity; the samples are the byte offsets `16*k`
(every 4th RGBA pixel); and two identical frames never report motion, for any
sensitivity setting. -/
theorem claim4_motion_diff_threshold (sensitivity : ℕ) (current : ImageData)
    (s : MotionState) (prev : ImageData) (hp : s.previousFrame = some prev)
    (hw : prev.width = current.width) (hh : prev.height = current.height)
    (hl : current.data.length = prev.data.length) :
    ((detectMotionTick sensitivity current s).motionDetected = true ↔
      ((countMotionPixels sensitivity current.data prev.data : ℚ) >
        ((current.data.length : ℚ) / 16) * (1 / 100))) ∧
    (countMotionPixels sensitivity current.data prev.data =
      ((List.range ((min current.data.length prev.data.length - 3 + 15) / 16)).filter
        (fun k => pixelChanged sensitivity current.data prev.data (16 * k))).length) ∧
    (∀ i : ℕ, pixelChanged sensitivity current.data prev.data i = true ↔
      (sensitivity < ((current.data.getD i 0 : ℤ) - (prev.data.getD i 0 : ℤ)).natAbs ∨
       sensitivity < ((current.data.getD (i + 1) 0 : ℤ) - (prev.data.getD (i + 1) 0 : ℤ)).natAbs ∨
       sensitivity < ((current.data.getD (i + 2) 0 : ℤ) - (prev.data.getD (i + 2) 0 : ℤ)).natAbs)) ∧
    (prev.data = current.data →
      (detectMotionTick sensitivity current s).motionDetected = false) := by
  have hmin : min current.data.length prev.data.length = current.data.length := by
    rw [hl, min_self]
  refine ⟨?_, rfl, ?_, ?_⟩
  · rw [detectMotionTick_eval sensitivity current s prev hp hw hh hl]
    simp only [decide_eq_true_iff, hmin]
    rw [gt_iff_lt, show ((current.data.length : ℚ) / 16) * (1 / 100)
        = (current.data.length : ℚ) / 1600 by ring,
      div_lt_iff₀ (by norm_num : (0:ℚ) < 1600)]
    constructor
    · intro h
      have h2 : ((current.data.length : ℕ) : ℚ)
          < ((1600 * countMotionPixels sensitivity current.data prev.data : ℕ) : ℚ) := by
        exact_mod_cast h
      push_cast at h2
      linarith
    · intro h
      have h2 : ((current.data.length : ℕ) : ℚ)
          < ((1600 * countMotionPixels sensitivity current.data prev.data : ℕ) : ℚ) := by
        push_cast; linarith
      exact_mod_cast h2
  · intro i
    simp only [pixelChanged, Bool.or_eq_true, decide_eq_true_iff]
    tauto
  · intro hsame
    rw [detectMotionTick_eval sensitivity current s prev hp hw hh hl, hsame,
      countMotionPixels_self]
    simp

/-- Witness for C4 at concrete inputs: a 1x1 frame compared against an
identical previous frame reports no motion at sensitivity 20. -/
theorem claim4_witness :
    (detectMotionTick 20 ⟨1, 1, [7, 7, 7, 255]⟩
      ⟨true, some ⟨1, 1, [7, 7, 7, 255]⟩⟩).motionDetected = false :=
  (claim4_motion_diff_threshold 20 ⟨1, 1, [7, 7, 7, 255]⟩
    ⟨true, some ⟨1, 1, [7, 7, 7, 255]⟩⟩ ⟨1, 1, [7, 7, 7, 255]⟩
    rfl rfl rfl rfl).2.2.2 rfl

/-- C5 counterexample: a tick whose previous frame differs in dimensions does
not report `present = false` — after motion was detected on the preceding
tick, the dimension-mismatch tick still reports `motionDetected = true`
(the code leaves the flag unchanged instead of resetting it). -/
theorem claim5_counterexample :
    ((detectMotionTick 20 (⟨1, 1, [255, 255, 255, 255]⟩ : ImageData)
        (detectMotionTick 20 ⟨1, 1, [0, 0, 0, 255]⟩ ⟨false, none⟩)).previousFrame
      = some ⟨1, 1, [255, 255, 255, 255]⟩) ∧
    (⟨1, 1, [255, 255, 255, 255]⟩ : ImageData).width
      ≠ (⟨2, 1, [0, 0, 0, 255, 0, 0, 0, 255]⟩ : ImageData).width ∧
    (detectMotionTick 20 (⟨2, 1, [0, 0, 0, 255, 0, 0, 0, 255]⟩ : ImageData)
        (detectMotionTick 20 ⟨1, 1, [255, 255, 255, 255]⟩
          (detectMotionTick 20 ⟨1, 1, [0, 0, 0, 255]⟩ ⟨false, none⟩))).motionDetected
      = true := by
  have e1 : detectMotionTick 20 (⟨1, 1, [0, 0, 0, 255]⟩ : ImageData) ⟨false, none⟩
      = ⟨false, some ⟨1, 1, [0, 0, 0, 255]⟩⟩ := rfl
  have e2 : detectMotionTick 20 (⟨1, 1, [255, 255, 255, 255]⟩ : ImageData)
      (⟨false, some ⟨1, 1, [0, 0, 0, 255]⟩⟩ : MotionState)
      = ⟨true, some ⟨1, 1, [255, 255, 255, 255]⟩⟩ := by
    rw [detectMotionTick_eval 20 ⟨1, 1, [255, 255, 255, 255]⟩
      ⟨false, some ⟨1, 1, [0, 0, 0, 255]⟩⟩ ⟨1, 1, [0, 0, 0, 255]⟩ rfl rfl rfl rfl]
    decide
  have e3 : detectMotionTick 20 (⟨2, 1, [0, 0, 0, 255, 0, 0, 0, 255]⟩ : ImageData)
      (⟨true, some ⟨1, 1, [255, 255, 255, 255]⟩⟩ : MotionState)
      = ⟨true, some ⟨2, 1, [0, 0, 0, 255, 0, 0, 0, 255]⟩⟩ := by
    rw [detectMotionTick_keep 20 ⟨2, 1, [0, 0, 0, 255, 0, 0, 0, 255]⟩
      ⟨true, some ⟨1, 1, [255, 255, 255, 255]⟩⟩
      (Or.inr ⟨⟨1, 1, [255, 255, 255, 255]⟩, rfl, by decide⟩)]
  rw [e1, e2, e3]
  exact ⟨rfl, by decide, rfl⟩

/-- C5 amended: when the previous frame buffer is absent or differs in
dimensions from the current frame, the tick raises no error and leaves
`motionDetected` unchanged (so it reads `false` only when no motion had
already been reported, e.g. on the very first tick), and stores the current
frame as the new previous frame. -/
theorem claim5_amended_mismatch_keeps_flag (sensitivity : ℕ) (current : ImageData)
    (s : MotionState)
    (h : s.previousFrame = none ∨ ∃ prev, s.previousFrame = some prev ∧
      ¬(prev.width = current.width ∧ prev.height = current.height)) :
    (detectMotionTick sensitivity current s).motionDetected = s.motionDetected ∧
    (detectMotionTick sensitivity current s).previousFrame = some current := by
  rw [detectMotionTick_keep sensitivity current s h]
  exact ⟨rfl, rfl⟩

/-- Witness for C5 (amended) at concrete inputs: the very first tick (no
previous frame) leaves the flag `false` and stores the frame. -/
theorem claim5_witness :
    (detectMotionTick 20 ⟨1, 1, [9, 9, 9, 255]⟩ ⟨false, none⟩).motionDetected = false ∧
    (detectMotionTick 20 ⟨1, 1, [9, 9, 9, 255]⟩ ⟨false, none⟩).previousFrame
      = some ⟨1, 1, [9, 9, 9, 255]⟩ :=
  claim5_amended_mismatch_keeps_flag 20 ⟨1, 1, [9, 9, 9, 255]⟩ ⟨false, none⟩ (Or.inl rfl)

lemma faceRect_gray : faceRect 640 480 = ⟨240, 160, 160, 160⟩ := by
  unfold faceRect
  simp only [Rect.mk.injEq]
  norm_num

lemma sampleStarts_160 (start : ℚ) :
    sampleStarts start 160 = (List.range 16).map (fun (k : ℕ) => start + 10 * (k : ℚ)) := by
  unfold sampleStarts
  rw [show ((160 : ℚ) / 10) = ((16 : ℕ) : ℚ) by norm_num, Nat.ceil_natCast]

lemma grayData_nat (n : ℕ) (hn : n < 1228800) (h4 : n % 4 ≠ 3) :
    grayData (n : ℚ) = 128 := by
  unfold grayData
  rw [if_pos, if_neg]
  · rw [Rat.num_natCast]
    intro hc
    apply h4
    omega
  · refine ⟨Rat.den_natCast n, ?_, ?_⟩
    · rw [Rat.num_natCast]; exact Int.natCast_nonneg n
    · rw [Rat.num_natCast]; exact_mod_cast hn

lemma sampleStep_gray (a b : ℕ) (ha : a < 16) (hb : b < 16) (acc : ColorTotals) :
    sampleStep grayFrame (160 + 10 * (a : ℚ)) acc (240 + 10 * (b : ℚ)) =
      ⟨acc.rTotal + 128, acc.gTotal + 128, acc.bTotal + 128, acc.pixelCount + 1⟩ := by
  have h1 : grayData ((((160 + 10 * a) * 640 + (240 + 10 * b)) * 4 : ℕ) : ℚ) = 128 :=
    grayData_nat _ (by omega) (by omega)
  have h2 : grayData (((((160 + 10 * a) * 640 + (240 + 10 * b)) * 4 : ℕ) : ℚ) + 1) = 128 := by
    rw [show ((((160 + 10 * a) * 640 + (240 + 10 * b)) * 4 : ℕ) : ℚ) + 1
        = ((((160 + 10 * a) * 640 + (240 + 10 * b)) * 4 + 1 : ℕ) : ℚ) by push_cast; ring]
    exact grayData_nat _ (by omega) (by omega)
  have h3 : grayData (((((160 + 10 * a) * 640 + (240 + 10 * b)) * 4 : ℕ) : ℚ) + 2) = 128 := by
    rw [show ((((160 + 10 * a) * 640 + (240 + 10 * b)) * 4 : ℕ) : ℚ) + 2
        = ((((160 + 10 * a) * 640 + (240 + 10 * b)) * 4 + 2 : ℕ) : ℚ) by push_cast; ring]
    exact grayData_nat _ (by omega) (by omega)
  unfold sampleStep grayFrame Frame.dataLength
  dsimp only
  have hi : ((160 + 10 * (a : ℚ)) * ((640 : ℕ) : ℚ) + (240 + 10 * (b : ℚ))) * 4
      = ((((160 + 10 * a) * 640 + (240 + 10 * b)) * 4 : ℕ) : ℚ) := by
    push_cast
    ring
  rw [hi]
  rw [if_pos ⟨by positivity, by
    exact_mod_cast (by omega :
      ((160 + 10 * a) * 640 + (240 + 10 * b)) * 4 < 640 * 480 * 4)⟩]
  rw [h1, h2, h3]

lemma foldl_cols_gray (a : ℕ) (ha : a < 16) :
    ∀ (l : List ℕ), (∀ b ∈ l, b < 16) → ∀ (acc : ColorTotals),
      (l.map (fun (b : ℕ) => 240 + 10 * (b : ℚ))).foldl
          (sampleStep grayFrame (160 + 10 * (a : ℚ))) acc
        = ⟨acc.rTotal + 128 * l.length, acc.gTotal + 128 * l.length,
            acc.bTotal + 128 * l.length, acc.pixelCount + l.length⟩ := by
  intro l
  induction l with
  | nil =>
    intro _ acc
    obtain ⟨r, g, bb, c⟩ := acc
    simp
  | cons b t ih =>
    intro hmem acc
    rw [List.map_cons, List.foldl_cons,
      sampleStep_gray a b ha (hmem b (List.mem_cons_self b t)),
      ih (fun x hx => hmem x (List.mem_cons_of_mem b hx)) _]
    simp only [ColorTotals.mk.injEq, List.length_cons]
    refine ⟨by push_cast; ring, by push_cast; ring, by push_cast; ring, by omega⟩

lemma foldl_rows_gray :
    ∀ (l : List ℕ), (∀ a ∈ l, a < 16) → ∀ (acc : ColorTotals),
      (l.map (fun (a : ℕ) => 160 + 10 * (a : ℚ))).foldl
          (fun acc y => ((List.range 16).map (fun (b : ℕ) => 240 + 10 * (b : ℚ))).foldl
            (sampleStep grayFrame y) acc) acc
        = ⟨acc.rTotal + 2048 * l.length, acc.gTotal + 2048 * l.length,
            acc.bTotal + 2048 * l.length, acc.pixelCount + 16 * l.length⟩ := by
  intro l
  induction l with
  | nil =>
    intro _ acc
    obtain ⟨r, g, bb, c⟩ := acc
    simp
  | cons a t ih =>
    intro hmem acc
    rw [List.map_cons, List.foldl_cons,
      foldl_cols_gray a (hmem a (List.mem_cons_self a t)) (List.range 16)
        (fun x hx => List.mem_range.mp hx) acc,
      ih (fun x hx => hmem x (List.mem_cons_of_mem a hx)) _]
    simp only [ColorTotals.mk.injEq, List.length_cons, List.length_range]
    refine ⟨by push_cast; ring, by push_cast; ring, by push_cast; ring, by omega⟩

lemma centerTotals_gray :
    centerTotals grayFrame ⟨240, 160, 160, 160⟩ = ⟨32768, 32768, 32768, 256⟩ := by
  unfold centerTotals
  dsimp only
  simp only [sampleStarts_160]
  rw [foldl_rows_gray (List.range 16) (fun x hx => List.mem_range.mp hx) ⟨0, 0, 0, 0⟩]
  simp only [List.length_range, ColorTotals.mk.injEq]
  norm_num

lemma floor_col_gray (m : ℕ) :
    Int.floor ((240 : ℚ) + 160 * (((m : ℕ) : ℚ) / 8)) = ((240 + 20 * m : ℕ) : ℤ) := by
  rw [show (240 : ℚ) + 160 * (((m : ℕ) : ℚ) / 8)
      = (((240 + 20 * m : ℕ) : ℤ) : ℚ) by push_cast; ring]
  exact Int.floor_intCast _

lemma floor_row_gray (m : ℕ) :
    Int.floor ((160 : ℚ) + 160 * (((m : ℕ) : ℚ) / 16)) = ((160 + 10 * m : ℕ) : ℤ) := by
  rw [show (160 : ℚ) + 160 * (((m : ℕ) : ℚ) / 16)
      = (((160 + 10 * m : ℕ) : ℤ) : ℚ) by push_cast; ring]
  exact Int.floor_intCast _

lemma sampleIndex_gray (i : ℕ) :
    sampleIndex grayFrame ⟨240, 160, 160, 160⟩ i
      = ((((160 + 10 * (i / 8)) * 640 + (240 + 20 * (i % 8))) * 4 : ℕ) : ℤ) := by
  unfold sampleIndex grayFrame
  dsimp only
  rw [floor_col_gray (i % 8), floor_row_gray (i / 8)]
  push_cast
  ring

lemma signature_gray :
    generateFaceSignature grayFrame ⟨240, 160, 160, 160⟩
      = List.replicate 128 (128 / 255) := by
  rw [List.eq_replicate_iff]
  constructor
  · simp [generateFaceSignature]
  · intro c hc
    unfold generateFaceSignature at hc
    rw [List.mem_map] at hc
    obtain ⟨i, hi, rfl⟩ := hc
    rw [List.mem_range] at hi
    dsimp only
    rw [sampleIndex_gray i]
    have hd15 : i / 8 < 16 := by omega
    have hm7 : i % 8 < 8 := by omega
    set d := i / 8 with hdd
    set m := i % 8 with hmm
    have hguard : (0 : ℤ) ≤ ((((160 + 10 * d) * 640 + (240 + 20 * m)) * 4 : ℕ) : ℤ)
        ∧ ((((160 + 10 * d) * 640 + (240 + 20 * m)) * 4 : ℕ) : ℤ) < ((grayFrame.dataLength : ℕ) : ℤ) := by
      refine ⟨Int.natCast_nonneg _, ?_⟩
      show _ < ((640 * 480 * 4 : ℕ) : ℤ)
      exact_mod_cast (by omega : ((160 + 10 * d) * 640 + (240 + 20 * m)) * 4 < 640 * 480 * 4)
    rw [if_pos hguard]
    have hc1 : (((((160 + 10 * d) * 640 + (240 + 20 * m)) * 4 : ℕ) : ℤ) : ℚ) = ((((160 + 10 * d) * 640 + (240 + 20 * m)) * 4 : ℕ) : ℚ) := by
      push_cast
      ring
    have hc2 : ((((160 + 10 * d) * 640 + (240 + 20 * m)) * 4 : ℕ) : ℚ) + 1 = ((((160 + 10 * d) * 640 + (240 + 20 * m)) * 4 + 1 : ℕ) : ℚ) := by
      push_cast
      ring
    have hc3 : ((((160 + 10 * d) * 640 + (240 + 20 * m)) * 4 : ℕ) : ℚ) + 2 = ((((160 + 10 * d) * 640 + (240 + 20 * m)) * 4 + 2 : ℕ) : ℚ) := by
      push_cast
      ring
    simp only [show grayFrame.data = grayData from rfl]
    rw [hc1, hc2, hc3]
    rw [grayData_nat _ (by omega) (by omega), grayData_nat _ (by omega) (by omega),
      grayData_nat _ (by omega) (by omega)]
    norm_num

lemma heuristicDetect_gray : heuristicDetect grayFrame = ⟨true, 0, 128⟩ := by
  unfold heuristicDetect
  dsimp only
  have hr : faceRect grayFrame.width grayFrame.height = ⟨240, 160, 160, 160⟩ := faceRect_gray
  rw [hr, centerTotals_gray]
  dsimp only
  simp only [HeuristicResult.mk.injEq]
  refine ⟨?_, by norm_num, by norm_num⟩
  rw [decide_eq_true_iff]
  norm_num

/-- C3: the heuristic region detector reports `present` exactly when
`colorVariance < 80` and `80 < brightness < 200` over the per-channel means of
the sampled center region; on the 640x480 solid-gray frame (R=G=B=128) it
reports `present = true` with `colorVariance = 0` and `brightness = 128`, and
its signature generator produces a 128-entry descriptor whose every component
equals `128/255`. -/
theorem claim3_heuristic_gray_frame :
    (∀ fr : Frame, (heuristicDetect fr).present = true ↔
      ((heuristicDetect fr).colorVariance < 80 ∧ 80 < (heuristicDetect fr).brightness ∧
        (heuristicDetect fr).brightness < 200)) ∧
    (heuristicDetect grayFrame).present = true ∧
    (heuristicDetect grayFrame).colorVariance = 0 ∧
    (heuristicDetect grayFrame).brightness = 128 ∧
    generateFaceSignature grayFrame (faceRect grayFrame.width grayFrame.height)
      = List.replicate 128 (128 / 255) := by
  refine ⟨?_, ?_, ?_, ?_, ?_⟩
  · intro fr
    exact decide_eq_true_iff
  · rw [heuristicDetect_gray]
  · rw [heuristicDetect_gray]
  · rw [heuristicDetect_gray]
  · have hr : faceRect grayFrame.width grayFrame.height = ⟨240, 160, 160, 160⟩ :=
      faceRect_gray
    rw [hr, signature_gray]

/-- C10: every descriptor the signature generator produces has exactly 128
components; when the frame's samples are 8-bit values (each channel in
[0, 255]) every component lies in [0, 1]; and component `i` is the
luma-weighted value `(0.3*R + 0.6*G + 0.1*B) / 255` at its sample index when
that index is inside the pixel buffer, and exactly 0 otherwise. -/
theorem claim10_signature_length_range (fr : Frame) (rect : Rect) :
    (generateFaceSignature fr rect).length = 128 ∧
    ((∀ q : ℚ, 0 ≤ fr.data q ∧ fr.data q ≤ 255) →
      ∀ c ∈ generateFaceSignature fr rect, 0 ≤ c ∧ c ≤ 1) ∧
    (∀ i : ℕ, i < 128 → (generateFaceSignature fr rect).getD i 0 =
      if 0 ≤ sampleIndex fr rect i ∧ sampleIndex fr rect i < (fr.dataLength : ℤ) then
        (fr.data ((sampleIndex fr rect i : ℤ) : ℚ) * (3/10)
          + fr.data (((sampleIndex fr rect i : ℤ) : ℚ) + 1) * (6/10)
          + fr.data (((sampleIndex fr rect i : ℤ) : ℚ) + 2) * (1/10)) / 255
      else 0) := by
  refine ⟨?_, ?_, ?_⟩
  · simp [generateFaceSignature]
  · intro h8 c hc
    unfold generateFaceSignature at hc
    rw [List.mem_map] at hc
    obtain ⟨i, _, rfl⟩ := hc
    dsimp only
    split
    · obtain ⟨h0a, h0b⟩ := h8 ((sampleIndex fr rect i : ℤ) : ℚ)
      obtain ⟨h1a, h1b⟩ := h8 (((sampleIndex fr rect i : ℤ) : ℚ) + 1)
      obtain ⟨h2a, h2b⟩ := h8 (((sampleIndex fr rect i : ℤ) : ℚ) + 2)
      constructor
      · apply div_nonneg _ (by norm_num : (0:ℚ) ≤ 255)
        have t0 : (0:ℚ) ≤ fr.data ((sampleIndex fr rect i : ℤ) : ℚ) * (3/10) :=
          mul_nonneg h0a (by norm_num)
        have t1 : (0:ℚ) ≤ fr.data (((sampleIndex fr rect i : ℤ) : ℚ) + 1) * (6/10) :=
          mul_nonneg h1a (by norm_num)
        have t2 : (0:ℚ) ≤ fr.data (((sampleIndex fr rect i : ℤ) : ℚ) + 2) * (1/10) :=
          mul_nonneg h2a (by norm_num)
        linarith
      · rw [div_le_one (by norm_num : (0:ℚ) < 255)]
        linarith
    · norm_num
  · intro i hi
    unfold generateFaceSignature
    rw [List.getD_eq_getElem?_getD, List.getElem?_map, List.getElem?_range hi]
    rfl

/-- Witness for C10 at a concrete input: the gray frame's descriptor has 128
components, all in [0, 1], and component 0 follows the sampling formula. -/
theorem claim10_witness :
    (generateFaceSignature grayFrame (faceRect 640 480)).length = 128 ∧
    (∀ c ∈ generateFaceSignature grayFrame (faceRect 640 480), 0 ≤ c ∧ c ≤ 1) ∧
    (generateFaceSignature grayFrame (faceRect 640 480)).getD 0 0 =
      (if 0 ≤ sampleIndex grayFrame (faceRect 640 480) 0 ∧
          sampleIndex grayFrame (faceRect 640 480) 0 < (grayFrame.dataLength : ℤ) then
        (grayFrame.data ((sampleIndex grayFrame (faceRect 640 480) 0 : ℤ) : ℚ) * (3/10)
          + grayFrame.data (((sampleIndex grayFrame (faceRect 640 480) 0 : ℤ) : ℚ) + 1) * (6/10)
          + grayFrame.data (((sampleIndex grayFrame (faceRect 640 480) 0 : ℤ) : ℚ) + 2) * (1/10))
          / 255
      else 0) := by
  have h8 : ∀ q : ℚ, 0 ≤ grayFrame.data q ∧ grayFrame.data q ≤ 255 := by
    intro q
    show 0 ≤ grayData q ∧ grayData q ≤ 255
    unfold grayData
    split
    · split
      · norm_num
      · norm_num
    · norm_num
  have h := claim10_signature_length_range grayFrame (faceRect 640 480)
  exact ⟨h.1, h.2.1 h8, h.2.2 0 (by norm_num)⟩

lemma saveFace_shape (faceDetected : Bool) (faceName : String)
    (detections : List (List ℚ)) (nowId savedAtStr : String)
    (savedFaces : List FaceRecord) :
    (saveFace faceDetected faceName detections nowId savedAtStr savedFaces).1 = savedFaces ∨
    (saveFace faceDetected faceName detections nowId savedAtStr savedFaces).1
      = savedFaces ++ [⟨some nowId, some (jsTrim faceName), some savedAtStr,
          some (detections.getD 0 [])⟩] := by
  unfold saveFace
  split
  · left; rfl
  · split
    · left; rfl
    · right; rfl

/-- C6 counterexample: importing a batch containing a malformed entry (no
name, no descriptor) does not fail and does not leave the registry unchanged —
the malformed entry is appended and no error is surfaced, contradicting the
claimed per-entry validation and all-or-nothing failure. -/
theorem claim6_counterexample :
    (importFaces (Except.ok (ParsedJson.array [⟨none, none, none, none⟩])) []).1
      = [⟨none, none, none, none⟩] ∧
    (importFaces (Except.ok (ParsedJson.array [⟨none, none, none, none⟩])) []).2 = none ∧
    ([⟨none, none, none, none⟩] : List FaceRecord) ≠ ([] : List FaceRecord) ∧
    (⟨none, none, none, none⟩ : FaceRecord).name = none ∧
    (⟨none, none, none, none⟩ : FaceRecord).descriptor = none := by
  refine ⟨rfl, rfl, by decide, rfl, rfl⟩

/-- C6 amended: import performs no per-entry validation.  It is atomic only in
the weak sense that either the registry is unchanged (parse failure, non-array
value, or empty array) or the entire parsed array — malformed entries
included — is appended in registry order; a parse failure surfaces the error
message, a non-array or empty array is a silent no-op. -/
theorem claim6_amended_import_no_validation (parsed : Except String ParsedJson)
    (savedFaces : List FaceRecord) :
    ((importFaces parsed savedFaces).1 = savedFaces ∨
      ∃ items, parsed = Except.ok (ParsedJson.array items) ∧ 0 < items.length ∧
        (importFaces parsed savedFaces).1 = savedFaces ++ items) ∧
    (∀ e, parsed = Except.error e →
      importFaces parsed savedFaces = (savedFaces, some importErrorMsg)) ∧
    (parsed = Except.ok ParsedJson.nonArray →
      importFaces parsed savedFaces = (savedFaces, none)) ∧
    (∀ items, parsed = Except.ok (ParsedJson.array items) → items = [] →
      importFaces parsed savedFaces = (savedFaces, none)) := by
  refine ⟨?_, ?_, ?_, ?_⟩
  · cases parsed with
    | error e => left; rfl
    | ok v =>
      cases v with
      | nonArray => left; rfl
      | array items =>
        by_cases h : 0 < items.length
        · right
          exact ⟨items, rfl, h, by simp [importFaces, h]⟩
        · left
          simp [importFaces, h]
  · intro e he
    subst he
    rfl
  · intro hp
    subst hp
    rfl
  · intro items hp hempty
    subst hp
    subst hempty
    rfl

/-- Witness for C6 (amended) at concrete inputs: a parse failure and a
non-array value both leave the empty registry unchanged. -/
theorem claim6_witness :
    importFaces (Except.error "bad json") [] = ([], some importErrorMsg) ∧
    importFaces (Except.ok ParsedJson.nonArray) [] = ([], none) :=
  ⟨(claim6_amended_import_no_validation (Except.error "bad json") []).2.1 "bad json" rfl,
    (claim6_amended_import_no_validation (Except.ok ParsedJson.nonArray) []).2.2.1 rfl⟩

/-- C7 counterexample: enrolling with a whitespace-only name is a silent
no-op — the registry is unchanged but NO error is surfaced to the caller,
contradicting the claimed `ValidationError`. -/
theorem claim7_counterexample :
    jsTrim " " = "" ∧
    saveFace true " " [[0]] "100" "t1" [] = ([], none) := by
  constructor
  · decide
  · decide

/-- C7 amended: an enrollment attempt with `faceDetected` unset or an
empty/whitespace-only name is a silent no-op (registry unchanged, no error
surfaced); an attempt with no detection available surfaces the "No face
detected" error message and leaves the registry unchanged; a successful
attempt appends exactly one record carrying the clock-derived id, the trimmed
name, the timestamp and the first detection's descriptor, and surfaces no
error. -/
theorem claim7_amended_saveFace (faceDetected : Bool) (faceName : String)
    (detections : List (List ℚ)) (nowId savedAtStr : String)
    (savedFaces : List FaceRecord) :
    (faceDetected = false ∨ jsTrim faceName = "" →
      saveFace faceDetected faceName detections nowId savedAtStr savedFaces
        = (savedFaces, none)) ∧
    (faceDetected = true → jsTrim faceName ≠ "" → detections = [] →
      saveFace faceDetected faceName detections nowId savedAtStr savedFaces
        = (savedFaces, some noFaceErrorMsg)) ∧
    (faceDetected = true → jsTrim faceName ≠ "" → detections ≠ [] →
      saveFace faceDetected faceName detections nowId savedAtStr savedFaces
        = (savedFaces ++ [⟨some nowId, some (jsTrim faceName), some savedAtStr,
            some (detections.getD 0 [])⟩], none)) := by
  refine ⟨?_, ?_, ?_⟩
  · intro h
    unfold saveFace
    rw [if_pos h]
  · intro h1 h2 h3
    unfold saveFace
    rw [if_neg (by simp [h1, h2]), if_pos (by simp [h3])]
  · intro h1 h2 h3
    unfold saveFace
    rw [if_neg (by simp [h1, h2]), if_neg (by simp [List.length_eq_zero, h3])]

/-- Witness for C7 (amended) at concrete inputs: all three branches of
enrollment exercised on an empty registry. -/
theorem claim7_witness :
    saveFace false "Bob" [[0]] "1" "t" [] = ([], none) ∧
    saveFace true "Bob" [] "1" "t" [] = ([], some noFaceErrorMsg) ∧
    saveFace true "Bob" [[0]] "1" "t" []
      = ([⟨some "1", some (jsTrim "Bob"), some "t", some [0]⟩], none) := by
  refine ⟨(claim7_amended_saveFace false "Bob" [[0]] "1" "t" []).1 (Or.inl rfl),
    (claim7_amended_saveFace true "Bob" [] "1" "t" []).2.1 rfl (by decide) rfl, ?_⟩
  have h := (claim7_amended_saveFace true "Bob" [[0]] "1" "t" []).2.2 rfl (by decide)
    (by simp)
  simpa using h

/-- C8 counterexample: two enrollments in the same millisecond (same
`Date.now()` string, here "100") produce two registry entries sharing an id,
violating the claimed uniqueness invariant. -/
theorem claim8_counterexample :
    ((saveFace true "Bob" [[0]] "100" "t2"
        ((saveFace true "Ann" [[0]] "100" "t1" []).1)).1.map (fun f => f.id))
      = [some "100", some "100"] ∧
    ¬ ((saveFace true "Bob" [[0]] "100" "t2"
        ((saveFace true "Ann" [[0]] "100" "t1" []).1)).1.map (fun f => f.id)).Nodup := by
  constructor
  · decide
  · decide

/-- C8 amended: no operation ever rewrites an existing entry's id — enrollment
and import only append, removal only filters — and enrollment assigns the
clock-derived id to the new entry; id uniqueness is preserved by enrollment
only under the assumption that the clock string is not already present (same-
millisecond enrollments violate it), and import appends externally supplied
entries without any id check. -/
theorem claim8_amended_ids (faceDetected : Bool) (faceName : String)
    (detections : List (List ℚ)) (nowId savedAtStr idv : String)
    (savedFaces : List FaceRecord) (parsed : Except String ParsedJson) :
    ((saveFace faceDetected faceName detections nowId savedAtStr savedFaces).1 = savedFaces ∨
      ∃ f : FaceRecord, f.id = some nowId ∧
        (saveFace faceDetected faceName detections nowId savedAtStr savedFaces).1
          = savedFaces ++ [f]) ∧
    ((savedFaces.map (fun f => f.id)).Nodup →
      (some nowId : Option String) ∉ savedFaces.map (fun f => f.id) →
      (((saveFace faceDetected faceName detections nowId savedAtStr savedFaces).1).map
        (fun f => f.id)).Nodup) ∧
    ((savedFaces.map (fun f => f.id)).Nodup →
      ((removeFace idv savedFaces).map (fun f => f.id)).Nodup) ∧
    ((importFaces parsed savedFaces).1 = savedFaces ∨
      ∃ items, (importFaces parsed savedFaces).1 = savedFaces ++ items) := by
  refine ⟨?_, ?_, ?_, ?_⟩
  · rcases saveFace_shape faceDetected faceName detections nowId savedAtStr savedFaces with
      h | h
    · left; exact h
    · right
      exact ⟨⟨some nowId, some (jsTrim faceName), some savedAtStr,
        some (detections.getD 0 [])⟩, rfl, h⟩
  · intro hnodup hfresh
    rcases saveFace_shape faceDetected faceName detections nowId savedAtStr savedFaces with
      h | h
    · rw [h]; exact hnodup
    · rw [h, List.map_append]
      rw [List.nodup_append]
      refine ⟨hnodup, by simp, ?_⟩
      intro a ha hb
      simp only [List.map_cons, List.map_nil, List.mem_singleton] at hb
      subst hb
      exact hfresh ha
  · intro hnodup
    exact hnodup.sublist ((List.filter_sublist savedFaces).map (fun f => f.id))
  · unfold importFaces
    cases parsed with
    | error e => left; rfl
    | ok v =>
      cases v with
      | nonArray => left; rfl
      | array items =>
        by_cases h : 0 < items.length
        · right
          exact ⟨items, by simp [h]⟩
        · left
          simp [h]

/-- Witness for C8 (amended) at concrete inputs: enrolling into an empty
registry with a fresh id keeps the id list duplicate-free, and so does
removal. -/
theorem claim8_witness :
    (((saveFace true "Ann" [[0]] "7" "t" []).1).map (fun f => f.id)).Nodup ∧
    ((removeFace "7" ([] : List FaceRecord)).map (fun f => f.id)).Nodup :=
  ⟨(claim8_amended_ids true "Ann" [[0]] "7" "t" "7" [] (Except.ok ParsedJson.nonArray)).2.1
      (by decide) (by decide),
    (claim8_amended_ids true "Ann" [[0]] "7" "t" "7" [] (Except.ok ParsedJson.nonArray)).2.2.1
      (by decide)⟩

/-- C9: exporting a registry (serializing all entries in registry order as a
JSON array) and importing the exported file into a fresh empty registry yields
exactly the same entries in the same order; for the empty registry the export
produces no file and the fresh registry is already identical. -/
theorem claim9_export_import_roundtrip (savedFaces : List FaceRecord) :
    (match exportFaces savedFaces with
      | none => ([] : List FaceRecord)
      | some j => (importFaces (Except.ok j) []).1) = savedFaces := by
  unfold exportFaces
  by_cases h : savedFaces.length = 0
  · rw [if_pos h]
    exact (List.length_eq_zero.mp h).symm
  · rw [if_neg h]
    show (if 0 < savedFaces.length
        then (([] : List FaceRecord) ++ savedFaces, (none : Option String))
        else ([], none)).1 = savedFaces
    rw [if_pos (Nat.pos_of_ne_zero h)]
    simp

end WMD
